import Mathlib

/-!
Verification development for the GDPR-logger benchmark plotting script
(`plot_scripts/gdpruler_benchmark_plot.py`).

The script loads a CSV of benchmark rows, derives label columns, and for
seven fixed views computes grouped arithmetic means (pandas
`groupby(dim)[metric].mean()`) over (possibly filtered) rows, handing the
resulting series to a rendering backend.  The rendering backend
(matplotlib/seaborn) is treated as an external collaborator: a view is
modelled by the files it writes, the messages it prints, and the series it
computes; failures modelled are the scripts own partial operations
(list indexing on the fixed `hatches` list).

Numbers: the metric columns are floating point in the source; they are
modelled as rationals (`ℚ`), the exact counterpart of the arithmetic the
script performs.  Dimension columns are integers.
-/

/-- One row of the benchmark results table, with the nine required fields
(`load_gdpr_data` input schema). -/
structure Record where
  batch_size : Int
  entry_size_bytes : Int
  consumers : Int
  use_encryption : Int
  compression_level : Int
  entries_per_sec : ℚ
  write_amplification : ℚ
  avg_latency_ms : ℚ
  logical_throughput_gib_sec : ℚ
deriving DecidableEq

/-- A loaded dataset: an ordered collection of rows (a pandas DataFrame
restricted to the nine required columns). -/
abbrev DF := List Record

/-- Python `sorted(xs.unique())`: distinct values in ascending
order.  (`unique` keeps first occurrences, `sorted` orders them.) -/
def sortedUnique (l : List Int) : List Int :=
  List.insertionSort (· ≤ ·) l.dedup

/-- Arithmetic mean of a list of rationals (pandas `Series.mean`). -/
def meanQ (xs : List ℚ) : ℚ := xs.sum / xs.length

/-- The group keys of `df.groupby(dim)`: the sorted distinct values of the
dimension observed in `df` (pandas sorts group keys). -/
def keysOf (dim : Record → Int) (df : DF) : List Int :=
  sortedUnique (df.map dim)

/-- Pandas `df.groupby(dim)[metric].mean()`: the series mapping each observed value
of `dim` (in sorted order) to the arithmetic mean of `metric` over the rows
carrying that value. -/
def groupbyMean (dim : Record → Int) (metric : Record → ℚ) (df : DF) :
    List (Int × ℚ) :=
  (keysOf dim df).map fun k =>
    (k, meanQ ((df.filter fun r => decide (dim r = k)).map metric))

/-- Lookup `series[k]` guarded by `k in series.index`: the optional lookup into an
aggregated series. -/
def seriesLookup : List (Int × ℚ) → Int → Option ℚ
  | [], _ => none
  | (k, v) :: t, key => if k = key then some v else seriesLookup t key

def strNoEncryption : String := "No Encryption"
def strWithEncryption : String := "With Encryption"
def strNoCompression : String := "No Compression"
def strMediumCompression : String := "Medium (5)"
def strHighCompression : String := "High (9)"
def strOneKB : String := "1KB"
def strTwoKB : String := "2KB"
def strFourKB : String := "4KB"

/-- The `use_encryption` label map of `load_gdpr_data`
(`{0: No Encryption, 1: With Encryption}`); unmapped values give `none`
(pandas `map` gives NaN). -/
def encryptionLabel (v : Int) : Option String :=
  if v = 0 then some strNoEncryption
  else if v = 1 then some strWithEncryption
  else none

/-- The `compression_level` label map of `load_gdpr_data`
(`{0: No Compression, 5: Medium (5), 9: High (9)}`). -/
def compressionLabel (v : Int) : Option String :=
  if v = 0 then some strNoCompression
  else if v = 5 then some strMediumCompression
  else if v = 9 then some strHighCompression
  else none

/-- The `entry_size_bytes` label map of `load_gdpr_data`
(`{1024: 1KB, 2048: 2KB, 4096: 4KB}`). -/
def entrySizeLabel (v : Int) : Option String :=
  if v = 1024 then some strOneKB
  else if v = 2048 then some strTwoKB
  else if v = 4096 then some strFourKB
  else none

/-- A row together with the three derived label columns, as produced by the
preprocessing step of `load_gdpr_data`. -/
def labelRecord (r : Record) :
    Record × Option String × Option String × Option String :=
  (r, encryptionLabel r.use_encryption,
      compressionLabel r.compression_level,
      entrySizeLabel r.entry_size_bytes)

/-- The label-derivation pass of `load_gdpr_data` over a whole dataset. -/
def withLabels (df : DF) :
    List (Record × Option String × Option String × Option String) :=
  df.map labelRecord

section CoreLemmas

theorem mem_sortedUnique {a : Int} {l : List Int} :
    a ∈ sortedUnique l ↔ a ∈ l := by
  unfold sortedUnique
  rw [(List.perm_insertionSort _ _).mem_iff, List.mem_dedup]

theorem nodup_sortedUnique (l : List Int) : (sortedUnique l).Nodup :=
  (List.perm_insertionSort _ _).nodup_iff.mpr (List.nodup_dedup l)

theorem sorted_le_sortedUnique (l : List Int) :
    (sortedUnique l).Sorted (· ≤ ·) :=
  List.sorted_insertionSort _ _

theorem sorted_lt_sortedUnique (l : List Int) :
    (sortedUnique l).Sorted (· < ·) :=
  (sorted_le_sortedUnique l).lt_of_le (nodup_sortedUnique l)

theorem sortedUnique_congr_perm {l₁ l₂ : List Int} (h : l₁.Perm l₂) :
    sortedUnique l₁ = sortedUnique l₂ :=
  List.eq_of_perm_of_sorted
    ((List.perm_insertionSort _ _).trans
      (h.dedup.trans (List.perm_insertionSort _ _).symm))
    (sorted_le_sortedUnique l₁) (sorted_le_sortedUnique l₂)

theorem seriesLookup_map {l : List Int} {f : Int → ℚ} {k : Int} :
    seriesLookup (l.map fun a => (a, f a)) k =
      if k ∈ l then some (f k) else none := by
  induction l with
  | nil => rfl
  | cons a t ih =>
    by_cases hak : a = k
    · subst hak
      simp [seriesLookup]
    · simp only [List.map_cons, seriesLookup, if_neg hak, ih,
        List.mem_cons]
      by_cases hk : k ∈ t
      · simp [hk]
      · simp [hk, if_neg (fun h : k = a => hak h.symm)]

theorem mem_keysOf {dim : Record → Int} {df : DF} {k : Int} :
    k ∈ keysOf dim df ↔ ∃ r ∈ df, dim r = k := by
  unfold keysOf
  rw [mem_sortedUnique, List.mem_map]

theorem seriesLookup_groupbyMean {dim : Record → Int} {metric : Record → ℚ}
    {df : DF} {k : Int} :
    seriesLookup (groupbyMean dim metric df) k =
      if k ∈ keysOf dim df then
        some (meanQ ((df.filter fun r => decide (dim r = k)).map metric))
      else none := by
  unfold groupbyMean
  exact seriesLookup_map

theorem seriesLookup_groupbyMean_eq_none {dim : Record → Int}
    {metric : Record → ℚ} {df : DF} {k : Int} :
    seriesLookup (groupbyMean dim metric df) k = none ↔
      ∀ r ∈ df, dim r ≠ k := by
  rw [seriesLookup_groupbyMean]
  by_cases hk : k ∈ keysOf dim df
  · simp only [if_pos hk, iff_false_intro (Option.some_ne_none _),
      false_iff, not_forall]
    rcases mem_keysOf.mp hk with ⟨r, hr, hdim⟩
    exact ⟨r, hr, not_not_intro hdim⟩
  · simp only [if_neg hk, true_iff]
    intro r hr hdim
    exact hk (mem_keysOf.mpr ⟨r, hr, hdim⟩)

theorem groupbyMean_perm {dim : Record → Int} {metric : Record → ℚ}
    {df₁ df₂ : DF} (h : df₁.Perm df₂) :
    groupbyMean dim metric df₁ = groupbyMean dim metric df₂ := by
  unfold groupbyMean keysOf
  rw [sortedUnique_congr_perm (h.map dim)]
  refine List.map_congr_left fun k _ => ?_
  have hfil := h.filter fun r => decide (dim r = k)
  rw [meanQ, meanQ, (hfil.map metric).sum_eq,
    (hfil.map metric).length_eq]

end CoreLemmas

/-! ## The CSV loading phase (`load_gdpr_data` and what it touches)

`pd.read_csv` either parses the file into a table or raises; the loader
then evaluates `df[use_encryption]`, `df[compression_level]` and
`df[entry_size_bytes]` (raising `KeyError` when a column is absent) to
build the three label columns, and touches no other column. -/

/-- Raw tabular input: a header row of column names plus data rows. -/
structure Csv where
  header : List String
  rows : List (List String)
deriving DecidableEq

/-- Parsing check: `pd.read_csv` succeeds when every data row has one cell per header
column; otherwise the parse raises. -/
def csvParses (c : Csv) : Bool :=
  c.rows.all fun r => decide (r.length = c.header.length)

/-- The exceptions that can escape the load phase: a parse failure from
`read_csv`, or a `KeyError` for a column the loader accesses. -/
inductive LoadErr where
  | parseErr : LoadErr
  | keyErr : String → LoadErr
deriving DecidableEq

def colUseEncryption : String := "use_encryption"
def colCompressionLevel : String := "compression_level"
def colEntrySizeBytes : String := "entry_size_bytes"
def colBatchSize : String := "batch_size"
def colConsumers : String := "consumers"
def colEntriesPerSec : String := "entries_per_sec"
def colWriteAmplification : String := "write_amplification"
def colAvgLatencyMs : String := "avg_latency_ms"
def colLogicalThroughput : String := "logical_throughput_gib_sec"

/-- The nine fields the spec requires of every record (§3 of the spec). -/
def requiredFields : List String :=
  [colBatchSize, colEntrySizeBytes, colConsumers, colUseEncryption,
   colCompressionLevel, colEntriesPerSec, colWriteAmplification,
   colAvgLatencyMs, colLogicalThroughput]

/-- Column access `df[name]`: succeeds iff the column exists, else `KeyError`. -/
def getCol (c : Csv) (name : String) : Except LoadErr Unit :=
  if name ∈ c.header then .ok () else .error (.keyErr name)

def labelEncryption : String := "encryption_label"
def labelCompression : String := "compression_label"
def labelEntrySize : String := "entry_size_label"

/-- The loader `load_gdpr_data`: parse the CSV, then derive the three label columns by
mapping `use_encryption`, `compression_level` and `entry_size_bytes`
(each access raises `KeyError` when missing); no other column is touched
during loading. -/
def load_gdpr_data (c : Csv) : Except LoadErr Csv :=
  if csvParses c then
    (getCol c colUseEncryption).bind fun _ =>
    (getCol c colCompressionLevel).bind fun _ =>
    (getCol c colEntrySizeBytes).bind fun _ =>
    .ok { c with header :=
      c.header ++ [labelEncryption, labelCompression, labelEntrySize] }
  else .error .parseErr

/-! ## Axis keys and per-chart series builders -/

/-- Observed batch sizes, `sorted(df[batch_size].unique())` — observed batch sizes. -/
def batchSizesOf (df : DF) : List Int := sortedUnique (df.map Record.batch_size)

/-- Observed entry sizes, `sorted(df[entry_size_bytes].unique())` — observed entry sizes. -/
def entrySizesOf (df : DF) : List Int :=
  sortedUnique (df.map Record.entry_size_bytes)

/-- Observed writer threads, `sorted(df[consumers].unique())` — observed writer-thread counts. -/
def consumersOf (df : DF) : List Int := sortedUnique (df.map Record.consumers)

/-- Observed compression levels, `sorted(df[compression_level].unique())` — observed compression
levels. -/
def compLevelsOf (df : DF) : List Int :=
  sortedUnique (df.map Record.compression_level)

/-- Observed encryption settings, `sorted(df[use_encryption].unique())` — observed encryption
settings. -/
def encSettingsOf (df : DF) : List Int :=
  sortedUnique (df.map Record.use_encryption)

/-- The x-axis keys of the compression-vs-encryption subplot of
`create_compression_effect_plots`: the literal `encryption_settings = [0, 1]`
of the source, independent of the data. -/
def compEffectEncAxis (_df : DF) : List Int := [0, 1]

/-- The x-axis keys of the entry-size-vs-encryption subplot of
`create_entry_size_effect_plots`: the literal `encryption_settings = [0, 1]`
of the source, independent of the data. -/
def entrySizeEncAxis (_df : DF) : List Int := [0, 1]

/-- The throughput row of `create_compression_effect_plots` subplot (a)
for one compression level: `data[bs] / 1000 if bs in data.index else 0`
over the batch-size axis. -/
def compThroughputRow (df : DF) (c : Int) : List ℚ :=
  let data := groupbyMean Record.batch_size Record.entries_per_sec
    (df.filter fun r => decide (r.compression_level = c))
  (batchSizesOf df).map fun bs =>
    match seriesLookup data bs with
    | some v => v / 1000
    | none => 0

/-- The write-amplification row of `create_compression_effect_plots`
subplot (c) for one compression level:
`data[enc] if enc in data.index else 1.0` over the fixed `[0, 1]` axis. -/
def compWaByEncRow (df : DF) (c : Int) : List ℚ :=
  let data := groupbyMean Record.use_encryption Record.write_amplification
    (df.filter fun r => decide (r.compression_level = c))
  (compEffectEncAxis df).map fun e => (seriesLookup data e).getD 1

/-- The latency row of `create_writer_threads_effect_plots` subplot (d)
for one encryption/compression combination:
`data[c] if c in data.index else 0` over the writer-thread axis. -/
def writerLatencyRow (df : DF) (enc comp : Int) : List ℚ :=
  let data := groupbyMean Record.consumers Record.avg_latency_ms
    (df.filter fun r =>
      decide (r.use_encryption = enc ∧ r.compression_level = comp))
  (consumersOf df).map fun c => (seriesLookup data c).getD 0

/-- The scaling-efficiency series of `create_writer_threads_effect_plots`
subplot (c) for one entry size: computed only when the smallest observed
writer-thread count appears in the aggregated series with a strictly
positive mean (`if consumers_list[0] in data.index and
data[consumers_list[0]] > 0`); otherwise the entry size is skipped. -/
def scalingSeries (df : DF) (es : Int) : Option (List ℚ) :=
  let data := groupbyMean Record.consumers Record.entries_per_sec
    (df.filter fun r => decide (r.entry_size_bytes = es))
  match (consumersOf df).head? with
  | none => none
  | some c0 =>
    match seriesLookup data c0 with
    | none => none
    | some b =>
      if 0 < b then
        some ((consumersOf df).map fun c =>
          match seriesLookup data c with
          | some v => v / b
          | none => 0)
      else none

/-! ## The seven analysis views and the report driver (`main`)

A view is modelled by its observable outcome: the files it saves, the
messages it prints, or the exception it raises.  Rendering itself is the
external collaborator; the failures modelled are the ones the script can
trigger before any `savefig`: indexing the fixed ten-element `hatches`
list with one index per group when a view draws more than ten hatched
groups, and — in the encryption view only, which bar-plots the raw
`.values` of an encryption-subset series against x positions built from
the full data — the shape check of `ax.bar` (`np.broadcast_arrays`) when
the two lengths cannot broadcast.  The other bar views build their
heights by comprehensions over the axis itself, so their lengths always
match. -/

/-- The outcome of one successfully completed view: files written
(unconditionally overwritten) and console messages printed. -/
structure PlotOut where
  files : List String
  logs : List String
deriving DecidableEq

/-- The fixed hatch-pattern list of the source (ten entries). -/
def hatches : List String :=
  ["", "///", "\\\\\\", "xxx", "...", "+++", "|||", "---", "ooo", "***"]

def msgIndexError : String := "IndexError: list index out of range"
def msgValueError : String :=
  "ValueError: shape mismatch: objects cannot be broadcast to a single shape"
def msgNoBatchAnalysisData : String :=
  "No data found for compression=0 and encryption=1"

def fileEncryptionPng : String := "encryption_effect.png"
def fileEncryptionPdf : String := "encryption_effect.pdf"
def fileCompressionPng : String := "compression_effect.png"
def fileCompressionPdf : String := "compression_effect.pdf"
def fileEntrySizePng : String := "entry_size_effect.png"
def fileEntrySizePdf : String := "entry_size_effect.pdf"
def fileWriterThreadsPng : String := "writer_threads_effect.png"
def fileWriterThreadsPdf : String := "writer_threads_effect.pdf"
def fileBatchSizePng : String := "batch_size_effect.png"
def fileBatchSizePdf : String := "batch_size_effect.pdf"
def fileHeatmapsPng : String := "heatmaps.png"
def fileHeatmapsPdf : String := "heatmaps.pdf"
def fileBatchAnalysisPng : String := "batch_analysis.png"
def fileBatchAnalysisPdf : String := "batch_analysis.pdf"

/-- NumPy one-dimensional broadcast compatibility, as applied by
`np.broadcast_arrays` inside `Axes.bar`: two lengths are compatible when
they are equal or either is 1 (a length-1 height is repeated across the
axis; incompatible lengths raise `ValueError`). -/
def broadcastOk (n m : Nat) : Bool := decide (n = m ∨ n = 1 ∨ m = 1)

/-- One subplot of `create_encryption_effect_plots`: it calls `ax.bar`
twice with x positions from the full-data axis and heights
`df[df.use_encryption == e].groupby(dim)[metric].mean().values`
(for `e = 0` then `e = 1`), whose length is the number of distinct `dim`
values in that encryption subset.  The pair of calls succeeds when both
height lengths broadcast against the axis length. -/
def encBarOk (df : DF) (dim : Record → Int) (axis : List Int) : Bool :=
  broadcastOk
    (keysOf dim (df.filter fun r => decide (r.use_encryption = 0))).length
    axis.length
  && broadcastOk
    (keysOf dim (df.filter fun r => decide (r.use_encryption = 1))).length
    axis.length

/-- View `create_encryption_effect_plots`: only `hatches[0]` and `hatches[1]`
are used, so it has no failing list indexing, but each of its four subplots
bar-plots the raw encryption-subset series values against the full-data
axis (batch sizes, entry sizes, compression levels, writer threads); a
non-broadcastable length — e.g. an empty subset series against a
multi-key axis — raises `ValueError` before any file is saved. -/
def encryptionEffectView (df : DF) : Except String PlotOut :=
  if encBarOk df Record.batch_size (batchSizesOf df)
      && encBarOk df Record.entry_size_bytes (entrySizesOf df)
      && encBarOk df Record.compression_level (compLevelsOf df)
      && encBarOk df Record.consumers (consumersOf df) then
    .ok { files := [fileEncryptionPng, fileEncryptionPdf], logs := [] }
  else .error msgValueError

/-- View `create_compression_effect_plots`: every subplot indexes `hatches[i]`
for `i` ranging over the observed compression levels, so more than ten
levels raises `IndexError` before any file is saved. -/
def compressionEffectView (df : DF) : Except String PlotOut :=
  if (compLevelsOf df).length ≤ hatches.length then
    .ok { files := [fileCompressionPng, fileCompressionPdf], logs := [] }
  else .error msgIndexError

/-- View `create_entry_size_effect_plots`: indexes `hatches[i]` for `i` ranging
over the observed entry sizes. -/
def entrySizeEffectView (df : DF) : Except String PlotOut :=
  if (entrySizesOf df).length ≤ hatches.length then
    .ok { files := [fileEntrySizePng, fileEntrySizePdf], logs := [] }
  else .error msgIndexError

/-- View `create_writer_threads_effect_plots`: no hatched bars; the
`consumers_list[0]` accesses are guarded (the scaling loop only runs for
observed entry sizes, and the ideal-scaling comprehension is empty when
`consumers_list` is). -/
def writerThreadsEffectView (_df : DF) : Except String PlotOut :=
  .ok { files := [fileWriterThreadsPng, fileWriterThreadsPdf], logs := [] }

/-- View `create_batch_size_effect_plots`: line plots only, no failing
indexing. -/
def batchSizeEffectView (_df : DF) : Except String PlotOut :=
  .ok { files := [fileBatchSizePng, fileBatchSizePdf], logs := [] }

/-- View `create_heatmaps`: pivoted means handed to the heatmap renderer. -/
def heatmapsView (_df : DF) : Except String PlotOut :=
  .ok { files := [fileHeatmapsPng, fileHeatmapsPdf], logs := [] }

/-- The row filter of `create_encryption_batch_analysis_plot`:
`compression_level == 0 AND use_encryption == 1`. -/
def batchAnalysisPred (r : Record) : Bool :=
  decide (r.compression_level = 0 ∧ r.use_encryption = 1)

/-- One of the six fixed (consumers, entry size) variants of the
batch-analysis view. -/
structure Variant where
  consumers : Int
  entry_size_bytes : Int
  label : String
deriving DecidableEq

def variants : List Variant :=
  [⟨4, 256, "4 Writers, 256B Entry"⟩,
   ⟨8, 256, "8 Writers, 256B Entry"⟩,
   ⟨4, 1024, "4 Writers, 1KB Entry"⟩,
   ⟨8, 1024, "8 Writers, 1KB Entry"⟩,
   ⟨4, 4096, "4 Writers, 4KB Entry"⟩,
   ⟨8, 4096, "8 Writers, 4KB Entry"⟩]

/-- The rows of the filtered dataset belonging to one variant. -/
def variantRows (fdf : DF) (v : Variant) : DF :=
  fdf.filter fun r =>
    decide (r.consumers = v.consumers ∧ r.entry_size_bytes = v.entry_size_bytes)

/-- The y-values of the batch-analysis throughput subplot for one variant:
`throughput_data[bs] / 1000` for each axis batch size present in the
aggregated series (absent sizes are skipped, not defaulted). -/
def batchAnalysisThroughputPoints (fdf : DF) (v : Variant) : List ℚ :=
  let data := groupbyMean Record.batch_size Record.entries_per_sec
    (variantRows fdf v)
  (batchSizesOf fdf).filterMap fun bs =>
    (seriesLookup data bs).map fun m => m / 1000

/-- The y-values of the batch-analysis write-amplification subplot for one
variant: `(wa_data[bs] - 1) * 100` for each axis batch size present in the
aggregated series. -/
def batchAnalysisWaPoints (fdf : DF) (v : Variant) : List ℚ :=
  let data := groupbyMean Record.batch_size Record.write_amplification
    (variantRows fdf v)
  (batchSizesOf fdf).filterMap fun bs =>
    (seriesLookup data bs).map fun m => (m - 1) * 100

def msgBatchAnalysisHeader : String :=
  "Generated batch analysis paper plot with 6 variants:"

/-- The per-variant data-point summary lines printed by the batch-analysis
view. -/
def variantLogs (fdf : DF) : List String :=
  variants.map fun v =>
    "  - " ++ v.label ++ ": " ++ toString (variantRows fdf v).length
      ++ " data points"

/-- View `create_encryption_batch_analysis_plot`: filter to
`compression_level == 0 AND use_encryption == 1`; when the filtered subset
is empty, print a diagnostic and return without saving anything; otherwise
save the two artifacts and print the variant summary. -/
def batchAnalysisView (df : DF) : Except String PlotOut :=
  let fdf := df.filter batchAnalysisPred
  if fdf.isEmpty then
    .ok { files := [], logs := [msgNoBatchAnalysisData] }
  else
    .ok { files := [fileBatchAnalysisPng, fileBatchAnalysisPdf],
          logs := msgBatchAnalysisHeader :: variantLogs fdf }

/-- The seven views in the order `main` invokes them. -/
def allViews : List (DF → Except String PlotOut) :=
  [encryptionEffectView, compressionEffectView, entrySizeEffectView,
   writerThreadsEffectView, batchSizeEffectView, heatmapsView,
   batchAnalysisView]

/-- Sequential execution of views by `main`: there is no per-view exception
handler, so the first raising view ends the run; files and logs of the
completed views persist. -/
def runViews : List (DF → Except String PlotOut) → DF →
    (List String × List String × Option String)
  | [], _ => ([], [], none)
  | v :: vs, df =>
    match v df with
    | .ok out =>
      match runViews vs df with
      | (fs, ls, e) => (out.files ++ fs, out.logs ++ ls, e)
    | .error e => ([], [], some e)

/-- The chart-generation phase of `main`: run the seven views in order. -/
def runMain (df : DF) : List String × List String × Option String :=
  runViews allViews df

/-- The dataset-summary lines `main` prints after loading. -/
def consoleSummary (df : DF) : List String :=
  ["Loaded " ++ toString df.length ++ " benchmark results",
   "Data summary:",
   "  - Batch sizes: " ++ toString (batchSizesOf df),
   "  - Entry sizes: " ++ toString (entrySizesOf df),
   "  - Writer threads: " ++ toString (consumersOf df),
   "  - Encryption settings: " ++ toString (encSettingsOf df),
   "  - Compression levels: " ++ toString (compLevelsOf df)]

/-- One full run of the report for a loaded dataset: the console summary
plus the outcome of the seven views. -/
def fullReport (df : DF) :
    List String × List String × List String × Option String :=
  (consoleSummary df, runMain df)

/-- The whole `main` pipeline from raw CSV: the load phase runs first and
has no surrounding handler, so a load error terminates the process before
any view is invoked.  `toDF` stands for the typed reading of the parsed
table. -/
def mainPipeline (c : Csv) (toDF : Csv → DF) :
    Except LoadErr (List String × List String × Option String) :=
  (load_gdpr_data c).map fun _ => runMain (toDF c)

/-! ## Shared helper lemmas and example data -/

theorem map_fst_groupbyMean {dim : Record → Int} {metric : Record → ℚ}
    {df : DF} :
    (groupbyMean dim metric df).map Prod.fst = keysOf dim df := by
  unfold groupbyMean
  rw [List.map_map]
  exact List.map_id _

theorem mem_groupbyMean {dim : Record → Int} {metric : Record → ℚ}
    {df : DF} {k : Int} {v : ℚ} :
    (k, v) ∈ groupbyMean dim metric df ↔
      k ∈ keysOf dim df ∧
        v = meanQ ((df.filter fun r => decide (dim r = k)).map metric) := by
  unfold groupbyMean
  rw [List.mem_map]
  constructor
  · rintro ⟨a, ha, heq⟩
    obtain ⟨hk, hv⟩ := Prod.mk.injEq .. ▸ heq
    subst hk
    exact ⟨ha, hv.symm⟩
  · rintro ⟨hk, hv⟩
    exact ⟨k, hk, by rw [hv]⟩

theorem zip_map_self (l : List Int) (f : Int → ℚ) :
    l.zip (l.map f) = l.map fun a => (a, f a) := by
  induction l with
  | nil => rfl
  | cons a t ih => simpa [List.zip] using ih

theorem batchAnalysisView_skip {df : DF}
    (h : df.filter batchAnalysisPred = []) :
    batchAnalysisView df = .ok { files := [], logs := [msgNoBatchAnalysisData] } := by
  simp [batchAnalysisView, h]

/-- The example row of spec §8 (`batch_size` 512, `entries_per_sec` 50000,
`write_amplification` 1.2, `avg_latency_ms` 3.5,
`logical_throughput_gib_sec` 0.05). -/
def exampleRow1 : Record := ⟨512, 1024, 4, 1, 0, 50000, 6/5, 7/2, 1/20⟩

/-- The identical row with `entries_per_sec` 70000. -/
def exampleRow2 : Record := { exampleRow1 with entries_per_sec := 70000 }

def exampleDF : DF := [exampleRow1, exampleRow2]

/-! ## Claims -/

/-- C1: grouping a dataset by a single dimension with no filter yields one
entry per distinct observed value of the dimension, each equal to the
arithmetic mean of the metric over exactly the rows with that value; the
two spec-example rows with batch size 512 and throughputs 50000 and 70000
aggregate to mean 60000 under key 512. -/
theorem c1_aggregate_single_dim_mean (df : DF) (dim : Record → Int)
    (metric : Record → ℚ) :
    ((groupbyMean dim metric df).map Prod.fst).Nodup
    ∧ (∀ k, (∃ v, (k, v) ∈ groupbyMean dim metric df) ↔ ∃ r ∈ df, dim r = k)
    ∧ (∀ k v, (k, v) ∈ groupbyMean dim metric df →
        v = ((df.filter fun r => decide (dim r = k)).map metric).sum /
          (((df.filter fun r => decide (dim r = k)).length : ℚ)))
    ∧ groupbyMean Record.batch_size Record.entries_per_sec exampleDF =
        [(512, 60000)] := by
  refine ⟨?_, ?_, ?_, ?_⟩
  · rw [map_fst_groupbyMean]
    exact nodup_sortedUnique _
  · intro k
    constructor
    · rintro ⟨v, hv⟩
      exact mem_keysOf.mp (mem_groupbyMean.mp hv).1
    · intro hr
      exact ⟨_, mem_groupbyMean.mpr ⟨mem_keysOf.mpr hr, rfl⟩⟩
  · intro k v hkv
    rw [(mem_groupbyMean.mp hkv).2, meanQ, List.length_map]
  · norm_num [groupbyMean, keysOf, sortedUnique, meanQ, exampleDF,
      exampleRow1, exampleRow2, List.insertionSort, List.orderedInsert,
      List.dedup]

theorem c1_aggregate_single_dim_mean_witness :
    (60000 : ℚ) =
      ((exampleDF.filter fun r =>
        decide (Record.batch_size r = 512)).map Record.entries_per_sec).sum /
      (((exampleDF.filter fun r =>
        decide (Record.batch_size r = 512)).length : ℚ)) :=
  (c1_aggregate_single_dim_mean exampleDF Record.batch_size
    Record.entries_per_sec).2.2.1 512 60000
    (by
      rw [(c1_aggregate_single_dim_mean exampleDF Record.batch_size
        Record.entries_per_sec).2.2.2]
      exact List.mem_singleton.mpr rfl)

/-- C2: when no row satisfies `compression_level == 0 AND
use_encryption == 1`, the batch-analysis view detects the empty filtered
subset, prints the diagnostic, returns normally, and writes no files. -/
theorem c2_batch_analysis_empty_filter (df : DF)
    (h : ∀ r ∈ df, ¬(r.compression_level = 0 ∧ r.use_encryption = 1)) :
    batchAnalysisView df = .ok { files := [], logs := [msgNoBatchAnalysisData] } :=
  batchAnalysisView_skip (List.filter_eq_nil_iff.mpr fun r hr => by
    simpa [batchAnalysisPred] using h r hr)

def c2WitnessDF : DF := [⟨512, 1024, 4, 0, 0, 1000, 6/5, 1, 1/100⟩]

theorem c2_batch_analysis_empty_filter_witness :
    batchAnalysisView c2WitnessDF =
      .ok { files := [], logs := [msgNoBatchAnalysisData] } :=
  c2_batch_analysis_empty_filter c2WitnessDF (by decide)

/-- A CSV whose header carries eight of the nine required fields —
`entries_per_sec` is missing — with one well-formed data row. -/
def csvMissingMetric : Csv :=
  ⟨[colBatchSize, colEntrySizeBytes, colConsumers, colUseEncryption,
    colCompressionLevel, colWriteAmplification, colAvgLatencyMs,
    colLogicalThroughput],
   [["512", "1024", "4", "1", "0", "1.2", "3.5", "0.05"]]⟩

/-- C3 counterexample: `entries_per_sec` is a required field, the input
lacks it, and yet the load succeeds — the loader only touches the three
label-mapped columns, so the claimed load failure does not happen. -/
theorem c3_counterexample :
    colEntriesPerSec ∈ requiredFields ∧
    colEntriesPerSec ∉ csvMissingMetric.header ∧
    (load_gdpr_data csvMissingMetric).isOk = true := by decide

/-- C3 amended: the load fails exactly when the file cannot be parsed or
one of the three label-mapped columns (`use_encryption`,
`compression_level`, `entry_size_bytes`) is missing; and when the load does
fail, the pipeline terminates before any view runs. -/
theorem c3_amended_load_failure (c : Csv) (toDF : Csv → DF) :
    ((load_gdpr_data c).isOk = true ↔
      (csvParses c = true ∧ colUseEncryption ∈ c.header ∧
       colCompressionLevel ∈ c.header ∧ colEntrySizeBytes ∈ c.header))
    ∧ (∀ e, load_gdpr_data c = .error e → mainPipeline c toDF = .error e) := by
  constructor
  · unfold load_gdpr_data getCol
    by_cases hp : csvParses c
    · by_cases h1 : colUseEncryption ∈ c.header
      · by_cases h2 : colCompressionLevel ∈ c.header
        · by_cases h3 : colEntrySizeBytes ∈ c.header
          · simp [hp, h1, h2, h3, Except.isOk, Except.toBool, Except.bind]
          · simp [hp, h1, h2, h3, Except.isOk, Except.toBool, Except.bind]
        · simp [hp, h1, h2, Except.isOk, Except.toBool, Except.bind]
      · simp [hp, h1, Except.isOk, Except.toBool, Except.bind]
    · simp [hp, Except.isOk, Except.toBool]
  · intro e he
    unfold mainPipeline
    rw [he]
    rfl

theorem c3_amended_load_failure_witness :
    (load_gdpr_data csvMissingMetric).isOk = true ∧
      mainPipeline ⟨[], [["x"]]⟩ (fun _ => []) = .error .parseErr :=
  ⟨(c3_amended_load_failure csvMissingMetric (fun _ => [])).1.mpr
      (by decide),
   (c3_amended_load_failure ⟨[], [["x"]]⟩ (fun _ => [])).2 .parseErr rfl⟩

/-- A record with a given encryption setting and compression level (other
fields fixed). -/
def mkEncCompRow (e c : Int) : Record := ⟨512, 1024, 4, e, c, 1000, 6/5, 1, 1/100⟩

/-- Twenty-two rows: the eleven compression levels 0–10, each present with
both encryption settings, at a single batch size, entry size and
writer-thread count.  The encryption view succeeds (every subset series
matches its axis length), but the compression view indexes `hatches[i]`
for `i = 0..10` and raises `IndexError` at `i = 10`. -/
def dfBothEncElevenComp : DF :=
  ((List.range 11).map fun n => mkEncCompRow 0 n)
    ++ ((List.range 11).map fun n => mkEncCompRow 1 n)

/-- C4 counterexample: on `dfBothEncElevenComp` the encryption view
completes and saves its files, the compression view (view 2) raises, and
the driver — which has no per-view handler — never executes views 3–7,
although for instance the entry-size view would have succeeded on the same
data; no failure is logged and continued past. -/
theorem c4_counterexample :
    runMain dfBothEncElevenComp =
      ([fileEncryptionPng, fileEncryptionPdf], [], some msgIndexError)
    ∧ (encryptionEffectView dfBothEncElevenComp).isOk = true
    ∧ (entrySizeEffectView dfBothEncElevenComp).isOk = true
    ∧ fileEntrySizePng ∉ (runMain dfBothEncElevenComp).1
    ∧ fileBatchAnalysisPng ∉ (runMain dfBothEncElevenComp).1 := by decide

/-- C4 amended: the driver runs the seven views sequentially with no
per-view exception handling, so the first view that raises aborts all
subsequent views — whether that is the encryption view (a bar-shape
`ValueError`) or, when the encryption view completes, the compression view
(a `hatches` `IndexError`); the only recoverable per-view failure is the
empty-filtered-subset check inside the batch-analysis view itself, which
prints a diagnostic and returns normally. -/
theorem c4_amended_driver_aborts (df : DF) :
    (∀ e, encryptionEffectView df = .error e →
      runMain df = ([], [], some e))
    ∧ (∀ out e, encryptionEffectView df = .ok out →
      compressionEffectView df = .error e →
      runMain df = (out.files, out.logs, some e))
    ∧ ((∀ r ∈ df, ¬(r.compression_level = 0 ∧ r.use_encryption = 1)) →
      batchAnalysisView df =
        .ok { files := [], logs := [msgNoBatchAnalysisData] }) := by
  refine ⟨?_, ?_, ?_⟩
  · intro e he
    simp [runMain, runViews, allViews, he]
  · intro out e h1 h2
    simp [runMain, runViews, allViews, h1, h2]
  · intro h
    exact batchAnalysisView_skip (List.filter_eq_nil_iff.mpr fun r hr => by
      simpa [batchAnalysisPred] using h r hr)

theorem c4_amended_driver_aborts_witness :
    runMain dfBothEncElevenComp =
      ([fileEncryptionPng, fileEncryptionPdf], [], some msgIndexError)
    ∧ batchAnalysisView c2WitnessDF =
        .ok { files := [], logs := [msgNoBatchAnalysisData] } :=
  ⟨(c4_amended_driver_aborts dfBothEncElevenComp).2.1
      { files := [fileEncryptionPng, fileEncryptionPdf], logs := [] }
      msgIndexError rfl rfl,
   (c4_amended_driver_aborts c2WitnessDF).2.2 (by decide)⟩

/-- A dataset whose only observed encryption setting is 1. -/
def dfEncOnly : DF := [⟨512, 1024, 4, 1, 0, 1000, 6/5, 1, 1/100⟩]

/-- C5 counterexample: the encryption axes of the compression-vs-encryption
and entry-size-vs-encryption subplots are the fixed domain `[0, 1]`, not
the sorted observed values — on a dataset whose rows all have
`use_encryption = 1` the axis still contains the unobserved key 0. -/
theorem c5_counterexample :
    compEffectEncAxis dfEncOnly ≠
      sortedUnique (dfEncOnly.map Record.use_encryption)
    ∧ entrySizeEncAxis dfEncOnly ≠
      sortedUnique (dfEncOnly.map Record.use_encryption)
    ∧ (0 : Int) ∈ entrySizeEncAxis dfEncOnly
    ∧ ∀ r ∈ dfEncOnly, r.use_encryption ≠ 0 := by decide

/-- C5 amended: the batch-size, entry-size, writer-thread and
compression-level axes are always exactly the sorted distinct observed
values of their dimension, but the encryption axes of the
compression-vs-encryption and entry-size-vs-encryption subplots are the
externally fixed domain `[0, 1]`, independent of the data. -/
theorem c5_amended_axis_keys (df : DF) :
    ((∀ k, k ∈ batchSizesOf df ↔ ∃ r ∈ df, r.batch_size = k)
      ∧ (batchSizesOf df).Sorted (· < ·))
    ∧ ((∀ k, k ∈ entrySizesOf df ↔ ∃ r ∈ df, r.entry_size_bytes = k)
      ∧ (entrySizesOf df).Sorted (· < ·))
    ∧ ((∀ k, k ∈ consumersOf df ↔ ∃ r ∈ df, r.consumers = k)
      ∧ (consumersOf df).Sorted (· < ·))
    ∧ ((∀ k, k ∈ compLevelsOf df ↔ ∃ r ∈ df, r.compression_level = k)
      ∧ (compLevelsOf df).Sorted (· < ·))
    ∧ compEffectEncAxis df = [0, 1]
    ∧ entrySizeEncAxis df = [0, 1] := by
  refine ⟨⟨?_, ?_⟩, ⟨?_, ?_⟩, ⟨?_, ?_⟩, ⟨?_, ?_⟩, rfl, rfl⟩ <;>
    first
    | exact fun k => mem_sortedUnique.trans List.mem_map
    | exact sorted_lt_sortedUnique _

theorem c5_amended_axis_keys_witness :
    ((512 : Int) ∈ batchSizesOf dfEncOnly ↔
      ∃ r ∈ dfEncOnly, r.batch_size = 512)
    ∧ compEffectEncAxis dfEncOnly = [0, 1] :=
  ⟨(c5_amended_axis_keys dfEncOnly).1.1 512,
   (c5_amended_axis_keys dfEncOnly).2.2.2.2.1⟩

/-- A dataset containing a record with the unmapped entry size 8192. -/
def dfUnmappedSize : DF := [⟨512, 8192, 4, 0, 0, 42, 1, 1, 1⟩]

/-- C6: the loader derives the three label columns by the fixed mappings;
an unmapped value (e.g. `entry_size_bytes = 8192`) gets a missing label
while the record keeps its raw numeric fields and still participates in
numeric aggregations. -/
theorem c6_label_mappings :
    (encryptionLabel 0 = some strNoEncryption
      ∧ encryptionLabel 1 = some strWithEncryption)
    ∧ (compressionLabel 0 = some strNoCompression
      ∧ compressionLabel 5 = some strMediumCompression
      ∧ compressionLabel 9 = some strHighCompression)
    ∧ (entrySizeLabel 1024 = some strOneKB
      ∧ entrySizeLabel 2048 = some strTwoKB
      ∧ entrySizeLabel 4096 = some strFourKB)
    ∧ entrySizeLabel 8192 = none
    ∧ (∀ df : DF, (withLabels df).map Prod.fst = df)
    ∧ (∀ (df : DF) (r : Record), r ∈ df → labelRecord r ∈ withLabels df)
    ∧ (8192 : Int) ∈ keysOf Record.entry_size_bytes dfUnmappedSize
    ∧ seriesLookup (groupbyMean Record.entry_size_bytes
        Record.entries_per_sec dfUnmappedSize) 8192 = some 42 := by
  refine ⟨⟨rfl, rfl⟩, ⟨rfl, rfl, rfl⟩, ⟨rfl, rfl, rfl⟩, rfl, ?_, ?_, ?_, ?_⟩
  · intro df
    rw [withLabels, List.map_map]
    exact List.map_id _
  · intro df r hr
    exact List.mem_map_of_mem labelRecord hr
  · decide
  · norm_num [groupbyMean, keysOf, sortedUnique, meanQ, seriesLookup,
      dfUnmappedSize, List.insertionSort, List.orderedInsert, List.dedup]

theorem c6_label_mappings_witness :
    labelRecord ⟨512, 8192, 4, 0, 0, 42, 1, 1, 1⟩ ∈ withLabels dfUnmappedSize :=
  c6_label_mappings.2.2.2.2.2.1 dfUnmappedSize _ (List.mem_singleton.mpr rfl)

def exampleVariant : Variant := ⟨4, 1024, "4 Writers, 1KB Entry"⟩

/-- A variant dataset whose aggregated write amplification is exactly 1. -/
def dfWaOne : DF := [⟨512, 1024, 4, 1, 0, 1000, 1, 1, 1⟩]

/-- A variant dataset with write amplifications 1.2 and 1.3 at the same
batch size: their aggregated mean is 1.25. -/
def dfWaTwo : DF :=
  [⟨512, 1024, 4, 1, 0, 1000, 6/5, 1, 1⟩,
   ⟨512, 1024, 4, 1, 0, 1000, 13/10, 1, 1⟩]

/-- C7: the batch-analysis view displays every aggregated
write-amplification mean `m` as `(m - 1) * 100`; an aggregated 1.0 is
plotted as 0 and an aggregated 1.25 as 25. -/
theorem c7_wa_percent_transform :
    (∀ (fdf : DF) (v : Variant) (bs : Int) (m : ℚ), bs ∈ batchSizesOf fdf →
      seriesLookup (groupbyMean Record.batch_size Record.write_amplification
        (variantRows fdf v)) bs = some m →
      (m - 1) * 100 ∈ batchAnalysisWaPoints fdf v)
    ∧ batchAnalysisWaPoints dfWaOne exampleVariant = [0]
    ∧ batchAnalysisWaPoints dfWaTwo exampleVariant = [25] := by
  refine ⟨?_, ?_, ?_⟩
  · intro fdf v bs m hbs hm
    simp only [batchAnalysisWaPoints, List.mem_filterMap]
    exact ⟨bs, hbs, by rw [hm]; rfl⟩
  · norm_num [batchAnalysisWaPoints, variantRows, groupbyMean, keysOf,
      sortedUnique, meanQ, seriesLookup, batchSizesOf, dfWaOne,
      exampleVariant, List.insertionSort, List.orderedInsert, List.dedup,
      List.filterMap]
  · norm_num [batchAnalysisWaPoints, variantRows, groupbyMean, keysOf,
      sortedUnique, meanQ, seriesLookup, batchSizesOf, dfWaTwo,
      exampleVariant, List.insertionSort, List.orderedInsert, List.dedup,
      List.filterMap]

theorem c7_wa_percent_transform_witness :
    ((1 : ℚ) - 1) * 100 ∈ batchAnalysisWaPoints dfWaOne exampleVariant :=
  c7_wa_percent_transform.1 dfWaOne exampleVariant 512 1 (by decide)
    (by norm_num [variantRows, groupbyMean, keysOf, sortedUnique, meanQ,
      seriesLookup, dfWaOne, exampleVariant, List.insertionSort,
      List.orderedInsert, List.dedup])

/-- C8: a group key on a chart axis that is absent from the aggregated
series is plotted with the charts explicit fallback — 0 for throughput
(compression view, subplot a) and latency (writer-threads view, subplot d),
1.0 for write amplification (compression view, subplot c) — while the
aggregated series itself contains a key exactly when some matching row
exists. -/
theorem c8_missing_key_fallbacks :
    (∀ (df : DF) (c k : Int), k ∈ batchSizesOf df →
      seriesLookup (groupbyMean Record.batch_size Record.entries_per_sec
        (df.filter fun r => decide (r.compression_level = c))) k = none →
      (k, (0 : ℚ)) ∈ (batchSizesOf df).zip (compThroughputRow df c))
    ∧ (∀ (df : DF) (c k : Int), k ∈ compEffectEncAxis df →
      seriesLookup (groupbyMean Record.use_encryption
        Record.write_amplification
        (df.filter fun r => decide (r.compression_level = c))) k = none →
      (k, (1 : ℚ)) ∈ (compEffectEncAxis df).zip (compWaByEncRow df c))
    ∧ (∀ (df : DF) (enc comp k : Int), k ∈ consumersOf df →
      seriesLookup (groupbyMean Record.consumers Record.avg_latency_ms
        (df.filter fun r =>
          decide (r.use_encryption = enc ∧ r.compression_level = comp))) k
        = none →
      (k, (0 : ℚ)) ∈ (consumersOf df).zip (writerLatencyRow df enc comp))
    ∧ (∀ (dim : Record → Int) (metric : Record → ℚ) (d : DF) (k : Int),
      seriesLookup (groupbyMean dim metric d) k = none ↔
        ∀ r ∈ d, dim r ≠ k) := by
  refine ⟨?_, ?_, ?_, ?_⟩
  · intro df c k hk hnone
    simp only [compThroughputRow]
    rw [zip_map_self]
    refine List.mem_map.mpr ⟨k, hk, ?_⟩
    rw [hnone]
  · intro df c k hk hnone
    simp only [compWaByEncRow]
    rw [zip_map_self]
    refine List.mem_map.mpr ⟨k, hk, ?_⟩
    rw [hnone]
    rfl
  · intro df enc comp k hk hnone
    simp only [writerLatencyRow]
    rw [zip_map_self]
    refine List.mem_map.mpr ⟨k, hk, ?_⟩
    rw [hnone]
    rfl
  · intro dim metric d k
    exact seriesLookup_groupbyMean_eq_none

/-- Two rows: batch size 512 only at compression 0, batch size 1024 only at
compression 9 — so batch size 512 is on the axis but absent from the
compression-9 aggregated series. -/
def dfFallback : DF :=
  [⟨512, 1024, 4, 0, 0, 1000, 6/5, 1, 1⟩,
   ⟨1024, 1024, 4, 0, 9, 1000, 6/5, 1, 1⟩]

theorem c8_missing_key_fallbacks_witness :
    ((512 : Int), (0 : ℚ)) ∈
      (batchSizesOf dfFallback).zip (compThroughputRow dfFallback 9) :=
  c8_missing_key_fallbacks.1 dfFallback 9 512 (by decide) (by decide)

/-- C9: the report is a pure function of the loaded dataset — two runs on
the same input produce the same console summary, the same artifact names
and the same view outcomes — and every aggregation is moreover invariant
under reordering the input rows. -/
theorem c9_report_deterministic (df₁ df₂ : DF) :
    (df₁ = df₂ → fullReport df₁ = fullReport df₂)
    ∧ (df₁.Perm df₂ → ∀ (dim : Record → Int) (metric : Record → ℚ),
        groupbyMean dim metric df₁ = groupbyMean dim metric df₂) :=
  ⟨fun h => by rw [h], fun h _ _ => groupbyMean_perm h⟩

theorem c9_report_deterministic_witness :
    fullReport exampleDF = fullReport exampleDF
    ∧ groupbyMean Record.batch_size Record.entries_per_sec
        [exampleRow1, exampleRow2] =
      groupbyMean Record.batch_size Record.entries_per_sec
        [exampleRow2, exampleRow1] :=
  ⟨(c9_report_deterministic exampleDF exampleDF).1 rfl,
   (c9_report_deterministic [exampleRow1, exampleRow2]
      [exampleRow2, exampleRow1]).2
      (List.Perm.swap exampleRow2 exampleRow1 []) Record.batch_size
      Record.entries_per_sec⟩

/-- C10: in the scaling-efficiency subplot, an entry size gets a normalized
series exactly when the smallest observed writer-thread count has an
aggregated mean that is present and strictly positive — in which case every
plotted value divides by that positive baseline — and otherwise the entry
size is omitted. -/
theorem c10_scaling_baseline_guard (df : DF) (es : Int) :
    (∀ s, scalingSeries df es = some s →
      ∃ c0 b, (consumersOf df).head? = some c0
        ∧ seriesLookup (groupbyMean Record.consumers Record.entries_per_sec
            (df.filter fun r => decide (r.entry_size_bytes = es))) c0 = some b
        ∧ 0 < b
        ∧ s = (consumersOf df).map fun c =>
            match seriesLookup (groupbyMean Record.consumers
              Record.entries_per_sec
              (df.filter fun r => decide (r.entry_size_bytes = es))) c with
            | some v => v / b
            | none => 0)
    ∧ (∀ c0, (consumersOf df).head? = some c0 →
        seriesLookup (groupbyMean Record.consumers Record.entries_per_sec
          (df.filter fun r => decide (r.entry_size_bytes = es))) c0 = none →
        scalingSeries df es = none)
    ∧ (∀ c0 b, (consumersOf df).head? = some c0 →
        seriesLookup (groupbyMean Record.consumers Record.entries_per_sec
          (df.filter fun r => decide (r.entry_size_bytes = es))) c0 = some b →
        b ≤ 0 → scalingSeries df es = none) := by
  refine ⟨?_, ?_, ?_⟩
  · intro s hs
    cases hh : (consumersOf df).head? with
    | none =>
      simp only [scalingSeries, hh] at hs
      exact Option.noConfusion hs
    | some c0 =>
      simp only [scalingSeries, hh] at hs
      cases hl : seriesLookup (groupbyMean Record.consumers
          Record.entries_per_sec
          (df.filter fun r => decide (r.entry_size_bytes = es))) c0 with
      | none =>
        simp only [hl] at hs
        exact Option.noConfusion hs
      | some b =>
        simp only [hl] at hs
        by_cases hb : 0 < b
        · rw [if_pos hb] at hs
          exact ⟨c0, b, rfl, hl, hb, (Option.some.inj hs).symm⟩
        · rw [if_neg hb] at hs
          exact Option.noConfusion hs
  · intro c0 hh hl
    simp only [scalingSeries, hh, hl]
  · intro c0 b hh hl hb
    simp only [scalingSeries, hh, hl, if_neg (not_lt.mpr hb)]

/-- Two rows at writer-thread counts 4 and 8 with entry size 1024; no row
has entry size 9999, so the compression-9 baseline for 9999 is absent. -/
def dfScaling : DF :=
  [⟨512, 1024, 4, 0, 0, 1000, 1, 1, 1⟩,
   ⟨512, 1024, 8, 0, 0, 2000, 1, 1, 1⟩]

theorem c10_scaling_baseline_guard_witness :
    scalingSeries dfScaling 9999 = none :=
  (c10_scaling_baseline_guard dfScaling 9999).2.1 4 (by decide) (by decide)
